import Mathlib

/-!
Verification of the typed configuration store of the ONS client
(`src/src/main/cpp/ons/ONSFactoryProperty.cpp`), shallowly embedded in Lean.
The property store `std::map<std::string, std::string> property_map_` is
modelled as an association list with replace-on-insert semantics; functions
that may throw `ONSClientException` return `Except String _`, the error
carrying the exception message.
-/

namespace ons

/-- Modelled from the spec: the five-valued `ONSChannel` enum is declared in a
header that is not under `src/`; the spec fixes its variants as
CLOUD, ALIYUN, ALL, LOCAL, INNER. -/
inductive ONSChannel where
  | CLOUD
  | ALIYUN
  | ALL
  | LOCAL
  | INNER
deriving DecidableEq, Repr

/-- Modelled from the spec: the two-valued `MessageModel` enum is declared in a
header that is not under `src/`; the spec fixes its variants as
CLUSTERING and BROADCASTING. -/
inductive MessageModelEnum where
  | CLUSTERING
  | BROADCASTING
deriving DecidableEq, Repr

/-- Modelled from the spec: the `Trace` flag enum (ON / OFF) is declared in a
header that is not under `src/`. -/
inductive Trace where
  | ON
  | OFF
deriving DecidableEq, Repr

/-- Modelled from the spec: `FAQ.h` is not under `src/`; errors carry a
human-readable explanation together with a fixed error tag, so
`FAQ::errorMessage(info, faq)` is modelled as appending the tag. -/
def FAQ.errorMessage (info : String) (faq : String) : String :=
  info ++ " " ++ faq

/-- Modelled from the spec: the fixed error tag distinguishing the
configuration-validation failure class. -/
def FAQ.CLIENT_CHECK_MSG_EXCEPTION : String :=
  "client_check_msg_exception"

/-- The string-keyed property map `property_map_`. -/
abbrev PropertyMap := List (String × String)

/-- `std::map` lookup: the value under a key, if present. -/
def mapFind (m : PropertyMap) (k : String) : Option String :=
  match m with
  | [] => none
  | (k', v) :: rest => if k' = k then some v else mapFind rest k

/-- `property_map_[key] = value`: replace the value under `key`, inserting
when absent. -/
def mapInsert (m : PropertyMap) (k : String) (v : String) : PropertyMap :=
  match m with
  | [] => [(k, v)]
  | (k', v') :: rest => if k' = k then (k, v) :: rest else (k', v') :: mapInsert rest k v

namespace ONSFactoryProperty

def LogPath : String := "LogPath"
def ProducerId : String := "ProducerId"
def ConsumerId : String := "ConsumerId"
def GroupId : String := "GroupId"
def AccessKey : String := "AccessKey"
def SecretKey : String := "SecretKey"
def MessageModel : String := "MessageModel"
def BROADCASTING : String := "BROADCASTING"
def CLUSTERING : String := "CLUSTERING"
def SendMsgTimeoutMillis : String := "SendMsgTimeoutMillis"
def SuspendTimeMillis : String := "SuspendTimeMillis"
def SendMsgRetryTimes : String := "SendMsgRetryTimes"
def MaxMsgCacheSize : String := "MaxMsgCacheSize"
def MaxCachedMessageSizeInMiB : String := "MaxCachedMessageSizeInMiB"
def ONSAddr : String := "ONSAddr"
def NAMESRV_ADDR : String := "NAMESRV_ADDR"
def ConsumeThreadNums : String := "ConsumeThreadNums"
def OnsChannel : String := "OnsChannel"
def OnsTraceSwitch : String := "OnsTraceSwitch"
def ConsumerInstanceName : String := "ConsumerInstanceName"
def InstanceId : String := "InstanceId"
def DEFAULT_CHANNEL : String := "ALIYUN"
def EMPTY_STRING : String := ""

/-- The exception message thrown by `validate` for a bad MessageModel value. -/
def messageModelError : String :=
  FAQ.errorMessage
    "MessageModel could only be set to BROADCASTING or CLUSTERING, please set it."
    FAQ.CLIENT_CHECK_MSG_EXCEPTION

/-- The exception message thrown by `validate` for an empty AccessKey. -/
def accessKeyError : String :=
  FAQ.errorMessage "AccessKey must be set." FAQ.CLIENT_CHECK_MSG_EXCEPTION

/-- The exception message thrown by `validate` for an empty SecretKey. -/
def secretKeyError : String :=
  FAQ.errorMessage "SecretKey must be set." FAQ.CLIENT_CHECK_MSG_EXCEPTION

/-- The exception message thrown by `setOnsChannel` for an unknown enum value. -/
def onsChannelError : String :=
  FAQ.errorMessage "ONSChannel could only be set to CLOUD/ALIYUN/ALL, please reset it."
    FAQ.CLIENT_CHECK_MSG_EXCEPTION

/-- `ONSFactoryProperty::validate(key, value)`: key-dispatched rule table;
throws on violation, otherwise returns `true`. -/
def validate (key : String) (value : String) : Except String Bool := do
  if key = MessageModel then
    if value ≠ BROADCASTING ∧ value ≠ CLUSTERING then
      Except.error messageModelError
  if key = AccessKey then
    if value = "" then
      Except.error accessKeyError
  if key = SecretKey then
    if value = "" then
      Except.error secretKeyError
  return true

/-- `ONSFactoryProperty::setFactoryProperty(key, value)`: validated write;
the exception from `validate` is rethrown unchanged. -/
def setFactoryProperty (s : PropertyMap) (key : String) (value : String) :
    Except String PropertyMap := do
  let ok ← validate key value
  if ok then
    return mapInsert s key value
  else
    return s

/-- `ONSFactoryProperty::getProperty(key)`: `none` when absent. -/
def getProperty (s : PropertyMap) (key : String) : Option String :=
  mapFind s key

/-- `ONSFactoryProperty::getProperty(key, default_value)`. -/
def getPropertyD (s : PropertyMap) (key : String) (default_value : String) : String :=
  (mapFind s key).getD default_value

/-- `ONSFactoryProperty::getProducerId()`: GroupId when present, else
ProducerId (empty string when also absent). -/
def getProducerId (s : PropertyMap) : String :=
  match getProperty s GroupId with
  | some group_id => group_id
  | none => getPropertyD s ProducerId EMPTY_STRING

/-- `ONSFactoryProperty::getConsumerId()`: GroupId when present, else
ConsumerId (empty string when also absent). -/
def getConsumerId (s : PropertyMap) : String :=
  match getProperty s GroupId with
  | some group_id => group_id
  | none => getPropertyD s ConsumerId EMPTY_STRING

/-- `ONSFactoryProperty::getGroupId()`. -/
def getGroupId (s : PropertyMap) : String :=
  getPropertyD s GroupId EMPTY_STRING

/-- `ONSFactoryProperty::getAccessKey()`. -/
def getAccessKey (s : PropertyMap) : String :=
  getPropertyD s AccessKey EMPTY_STRING

/-- `ONSFactoryProperty::getSecretKey()`. -/
def getSecretKey (s : PropertyMap) : String :=
  getPropertyD s SecretKey EMPTY_STRING

/-- `ONSFactoryProperty::setOnsChannel(channel)`: exhaustive literal dispatch,
throwing for a value outside the known variants. -/
def setOnsChannel (s : PropertyMap) (channel : ONSChannel) : Except String PropertyMap :=
  if channel = ONSChannel.CLOUD then
    setFactoryProperty s OnsChannel "CLOUD"
  else if channel = ONSChannel.ALIYUN then
    setFactoryProperty s OnsChannel "ALIYUN"
  else if channel = ONSChannel.ALL then
    setFactoryProperty s OnsChannel "ALL"
  else if channel = ONSChannel.LOCAL then
    setFactoryProperty s OnsChannel "LOCAL"
  else if channel = ONSChannel.INNER then
    setFactoryProperty s OnsChannel "INNER"
  else
    Except.error onsChannelError

/-- `ONSFactoryProperty::getOnsChannel()`: literal-to-enum mapping over the
stored value, defaulting to ALIYUN for absence or an unknown literal. -/
def getOnsChannel (s : PropertyMap) : ONSChannel :=
  let value := getPropertyD s OnsChannel "ALIYUN"
  if value = "CLOUD" then ONSChannel.CLOUD
  else if value = "ALIYUN" then ONSChannel.ALIYUN
  else if value = "ALL" then ONSChannel.ALL
  else if value = "LOCAL" then ONSChannel.LOCAL
  else if value = "INNER" then ONSChannel.INNER
  else ONSChannel.ALIYUN

/-- `ONSFactoryProperty::setMessageModel(message_model)`. -/
def setMessageModel (s : PropertyMap) (message_model : MessageModelEnum) :
    Except String PropertyMap :=
  match message_model with
  | MessageModelEnum.CLUSTERING => setFactoryProperty s MessageModel CLUSTERING
  | MessageModelEnum.BROADCASTING => setFactoryProperty s MessageModel BROADCASTING

/-- `ONSFactoryProperty::setSendMsgTimeout(timeout)` with a millisecond
duration: stores the decimal string of the count. -/
def setSendMsgTimeout (s : PropertyMap) (timeoutMs : Int) : Except String PropertyMap :=
  setFactoryProperty s SendMsgTimeoutMillis (toString timeoutMs)

/-- `ONSFactoryProperty::setSuspendDuration(duration)`: a zero count skips the
write entirely. -/
def setSuspendDuration (s : PropertyMap) (durationMs : Int) : Except String PropertyMap :=
  if durationMs = 0 then
    return s
  else
    setFactoryProperty s SuspendTimeMillis (toString durationMs)

/-- `ONSFactoryProperty::withTraceFeature(trace_flag)`. -/
def withTraceFeature (s : PropertyMap) (trace_flag : Trace) : Except String PropertyMap :=
  match trace_flag with
  | Trace.ON => setFactoryProperty s OnsTraceSwitch "true"
  | Trace.OFF => setFactoryProperty s OnsTraceSwitch "false"

/-- `ONSFactoryProperty::operator bool()`: readiness check. -/
def toBool (s : PropertyMap) : Bool :=
  match getOnsChannel s with
  | ONSChannel.ALIYUN => !(getAccessKey s).isEmpty && !(getSecretKey s).isEmpty
  | _ => true

/-- `ONSFactoryProperty::setDefaults()`. -/
def setDefaults (s : PropertyMap) : Except String PropertyMap := do
  let s ← setMessageModel s MessageModelEnum.CLUSTERING
  let s ← setSendMsgTimeout s 3000
  let s ← setSuspendDuration s 3000
  let s ← setFactoryProperty s MaxMsgCacheSize "1000"
  withTraceFeature s Trace.ON

/-- The parsed credential file: the string fields of the JSON object, as
exposed by the parser capability (field presence plus string extraction). -/
abbrev ConfigFields := List (String × String)

/-- `fields.contains(key)` on the parsed JSON object. -/
def containsField (fields : ConfigFields) (key : String) : Bool :=
  fields.any (fun p => p.1 = key)

/-- `fields[key].string_value()` on the parsed JSON object. -/
def fieldValue (fields : ConfigFields) (key : String) : String :=
  ((fields.find? (fun p => p.1 = key)).map (fun p => p.2)).getD ""

/-- One conditional copy step of `loadConfigFile`: write the field through
`setFactoryProperty` when present, otherwise leave the store alone. -/
def loadStep (s : PropertyMap) (fields : ConfigFields) (key : String) :
    Except String PropertyMap :=
  if containsField fields key then
    setFactoryProperty s key (fieldValue fields key)
  else
    return s

/-- `ONSFactoryProperty::loadConfigFile()`: `config = none` models every
early-return path (missing home directory, missing or unreadable file,
unparseable JSON); `some fields` models a successfully parsed object, whose
four recognized fields are copied in source order. -/
def loadConfigFile (config : Option ConfigFields) (s : PropertyMap) :
    Except String PropertyMap := do
  match config with
  | none => return s
  | some fields =>
    let s ← loadStep s fields AccessKey
    let s ← loadStep s fields SecretKey
    let s ← loadStep s fields NAMESRV_ADDR
    let s ← loadStep s fields GroupId
    return s

/-- `ONSFactoryProperty::ONSFactoryProperty()`: seed defaults then run the
bootstrap loader once. -/
def construct (config : Option ConfigFields) : Except String PropertyMap := do
  let s ← setDefaults []
  loadConfigFile config s

/-- The store produced by `setDefaults` on an empty map. -/
def defaultStore : PropertyMap :=
  [(MessageModel, CLUSTERING), (SendMsgTimeoutMillis, "3000"),
   (SuspendTimeMillis, "3000"), (MaxMsgCacheSize, "1000"), (OnsTraceSwitch, "true")]

/-- The error component of an `Except` result, `none` on success. -/
def errOf (r : Except String PropertyMap) : Option String :=
  match r with
  | Except.error e => some e
  | Except.ok _ => none

end ONSFactoryProperty

end ons

namespace ons.ONSFactoryProperty

/-! ### Helper lemmas about the map and the validated write -/

theorem mapFind_mapInsert_self (m : PropertyMap) (k v : String) :
    mapFind (mapInsert m k v) k = some v := by
  induction m with
  | nil => simp [mapInsert, mapFind]
  | cons hd tl ih =>
    obtain ⟨k0, v0⟩ := hd
    by_cases h : k0 = k
    · simp [mapInsert, h, mapFind]
    · simp [mapInsert, h, mapFind, ih]

theorem mapFind_mapInsert_other (m : PropertyMap) (k k' v : String) (h : k' ≠ k) :
    mapFind (mapInsert m k v) k' = mapFind m k' := by
  induction m with
  | nil =>
    show (if k = k' then some v else mapFind [] k') = mapFind [] k'
    rw [if_neg (fun hh => h (Eq.symm hh))]
  | cons hd tl ih =>
    obtain ⟨k0, v0⟩ := hd
    by_cases hk : k0 = k
    · subst hk
      simp only [mapInsert, if_true]
      simp only [mapFind]
      rw [if_neg (fun hh => h (Eq.symm hh)), if_neg (fun hh => h (Eq.symm hh))]
    · simp [mapInsert, hk, mapFind, ih]

theorem validate_ok (key value : String) (b : Bool)
    (h : validate key value = Except.ok b) : b = true := by
  unfold validate at h
  simp only [bind, Except.bind, pure, Except.pure] at h
  repeat any_goals split at h
  all_goals simp_all

theorem validate_error_cases (key value : String) (e : String)
    (h : validate key value = Except.error e) :
    (key = MessageModel ∧ ¬value = BROADCASTING ∧ ¬value = CLUSTERING ∧
        e = messageModelError) ∨
    (key = AccessKey ∧ value = "" ∧ e = accessKeyError) ∨
    (key = SecretKey ∧ value = "" ∧ e = secretKeyError) := by
  unfold validate at h
  simp only [bind, Except.bind, pure, Except.pure] at h
  repeat any_goals split at h
  all_goals simp_all

theorem setFactoryProperty_eq (s : PropertyMap) (key value : String) :
    setFactoryProperty s key value =
      match validate key value with
      | Except.error e => Except.error e
      | Except.ok _ => Except.ok (mapInsert s key value) := by
  unfold setFactoryProperty
  cases h : validate key value with
  | error e => simp [h, bind, Except.bind]
  | ok b =>
    have hb : b = true := validate_ok key value b h
    subst hb
    simp [h, bind, Except.bind, pure, Except.pure]

theorem setFactoryProperty_of_validate_error (s : PropertyMap) (key value e : String)
    (h : validate key value = Except.error e) :
    setFactoryProperty s key value = Except.error e := by
  have hs := setFactoryProperty_eq s key value
  rw [h] at hs
  exact hs

theorem setFactoryProperty_of_validate_ok (s : PropertyMap) (key value : String) (b : Bool)
    (h : validate key value = Except.ok b) :
    setFactoryProperty s key value = Except.ok (mapInsert s key value) := by
  have hs := setFactoryProperty_eq s key value
  rw [h] at hs
  exact hs

theorem validate_not_special (key value : String) (h1 : key ≠ MessageModel)
    (h2 : key ≠ AccessKey) (h3 : key ≠ SecretKey) :
    validate key value = Except.ok true := by
  unfold validate
  simp only [bind, Except.bind, pure, Except.pure]
  rw [if_neg h1, if_neg h2, if_neg h3]

theorem validate_messageModel_bad (value : String) (h1 : value ≠ BROADCASTING)
    (h2 : value ≠ CLUSTERING) :
    validate MessageModel value = Except.error messageModelError := by
  unfold validate
  simp only [bind, Except.bind, pure, Except.pure]
  simp [MessageModel, AccessKey, SecretKey, h1, h2]

theorem validate_accessKey_nonempty (value : String) (h : value ≠ "") :
    validate AccessKey value = Except.ok true := by
  unfold validate
  simp only [bind, Except.bind, pure, Except.pure]
  simp [MessageModel, AccessKey, SecretKey, h]

theorem validate_secretKey_nonempty (value : String) (h : value ≠ "") :
    validate SecretKey value = Except.ok true := by
  unfold validate
  simp only [bind, Except.bind, pure, Except.pure]
  simp [MessageModel, AccessKey, SecretKey, h]

theorem loadStep_ok_frame (s : PropertyMap) (fields : ConfigFields) (key k : String)
    (hk : k ≠ key) (s' : PropertyMap) (h : loadStep s fields key = Except.ok s') :
    getProperty s' k = getProperty s k := by
  unfold loadStep at h
  split at h
  · rw [setFactoryProperty_eq] at h
    cases hv : validate key (fieldValue fields key) with
    | error e => rw [hv] at h; exact absurd h (by simp)
    | ok b =>
      rw [hv] at h
      simp only [Except.ok.injEq] at h
      subst h
      exact mapFind_mapInsert_other s key k (fieldValue fields key) hk
  · simp only [pure, Except.pure, Except.ok.injEq] at h
    subst h
    rfl

theorem loadStep_ok_set (s : PropertyMap) (fields : ConfigFields) (key : String)
    (hc : containsField fields key = true) (s' : PropertyMap)
    (h : loadStep s fields key = Except.ok s') :
    getProperty s' key = some (fieldValue fields key) := by
  unfold loadStep at h
  rw [if_pos hc, setFactoryProperty_eq] at h
  cases hv : validate key (fieldValue fields key) with
  | error e => rw [hv] at h; exact absurd h (by simp)
  | ok b =>
    rw [hv] at h
    simp only [Except.ok.injEq] at h
    subst h
    exact mapFind_mapInsert_self s key (fieldValue fields key)

theorem loadConfigFile_ok_cases (fields : ConfigFields) (s s' : PropertyMap)
    (h : loadConfigFile (some fields) s = Except.ok s') :
    ∃ s1 s2 s3, loadStep s fields AccessKey = Except.ok s1 ∧
      loadStep s1 fields SecretKey = Except.ok s2 ∧
      loadStep s2 fields NAMESRV_ADDR = Except.ok s3 ∧
      loadStep s3 fields GroupId = Except.ok s' := by
  unfold loadConfigFile at h
  simp only [bind, Except.bind, pure, Except.pure] at h
  cases e1 : loadStep s fields AccessKey with
  | error e => simp [e1] at h
  | ok s1 =>
    simp only [e1] at h
    cases e2 : loadStep s1 fields SecretKey with
    | error e => simp [e2] at h
    | ok s2 =>
      simp only [e2] at h
      cases e3 : loadStep s2 fields NAMESRV_ADDR with
      | error e => simp [e3] at h
      | ok s3 =>
        simp only [e3] at h
        cases e4 : loadStep s3 fields GroupId with
        | error e => simp [e4] at h
        | ok s4 =>
          simp only [e4, Except.ok.injEq] at h
          subst h
          exact ⟨s1, s2, s3, rfl, e2, e3, e4⟩

/-! ### Claim theorems -/

/-- C1: `setFactoryProperty(key, value)` invokes the validator first; when the
validator rejects, the raised error is exactly the validator's configuration
error, its message carries the key name (and the reason after it), and no
updated store is produced; when the validator accepts, the new value
unconditionally replaces any prior value under that key, other keys staying
untouched. -/
theorem setFactoryProperty_validator_gate (key value : String) (s : PropertyMap) :
    (∀ e, validate key value = Except.error e →
        setFactoryProperty s key value = Except.error e ∧
        (∃ r, e = key ++ r)) ∧
    (∀ b, validate key value = Except.ok b →
        setFactoryProperty s key value = Except.ok (mapInsert s key value) ∧
        getProperty (mapInsert s key value) key = some value ∧
        (∀ k, k ≠ key → getProperty (mapInsert s key value) k = getProperty s k)) := by
  constructor
  · intro e he
    have hset := setFactoryProperty_eq s key value
    rw [he] at hset
    refine ⟨hset, ?_⟩
    rcases validate_error_cases key value e he with
      ⟨hk, _, _, he2⟩ | ⟨hk, _, he2⟩ | ⟨hk, _, he2⟩ <;> subst hk <;> subst he2
    · exact ⟨" could only be set to BROADCASTING or CLUSTERING, please set it. client_check_msg_exception", rfl⟩
    · exact ⟨" must be set. client_check_msg_exception", rfl⟩
    · exact ⟨" must be set. client_check_msg_exception", rfl⟩
  · intro b hb
    have hset := setFactoryProperty_eq s key value
    rw [hb] at hset
    refine ⟨hset, mapFind_mapInsert_self s key value, ?_⟩
    intro k hk
    exact mapFind_mapInsert_other s key k value hk

/-- Witness for C1: at key AccessKey with the empty value the validator
rejects, `setFactoryProperty` raises that exact error and its message starts
with the key name. -/
theorem setFactoryProperty_validator_gate_witness :
    setFactoryProperty [] AccessKey "" = Except.error accessKeyError ∧
    (∃ r, accessKeyError = AccessKey ++ r) :=
  (setFactoryProperty_validator_gate AccessKey "" []).1 accessKeyError (by rfl)

/-- C10: whether a validated write succeeds, and which validation error it
raises when it fails, depends only on the key and the value, never on the
current contents of the property store. -/
theorem setFactoryProperty_outcome_store_independent (key value : String)
    (s₁ s₂ : PropertyMap) :
    errOf (setFactoryProperty s₁ key value) = errOf (setFactoryProperty s₂ key value) := by
  rw [setFactoryProperty_eq, setFactoryProperty_eq]
  cases validate key value <;> simp [errOf]

/-- C4: whenever GroupId is present in the store, `getProducerId` and
`getConsumerId` both return its value; the specific keys ProducerId and
ConsumerId are consulted only when GroupId is absent. -/
theorem groupId_fallback (s : PropertyMap) :
    (∀ g, getProperty s GroupId = some g →
        getProducerId s = g ∧ getConsumerId s = g) ∧
    (getProperty s GroupId = none →
        getProducerId s = getPropertyD s ProducerId EMPTY_STRING ∧
        getConsumerId s = getPropertyD s ConsumerId EMPTY_STRING) := by
  constructor
  · intro g hg
    simp [getProducerId, getConsumerId, hg]
  · intro hg
    simp [getProducerId, getConsumerId, hg]

/-- Witness for C4: with GroupId set to g1 and ProducerId previously set to a
different value p1, both id getters return g1. -/
theorem groupId_fallback_witness :
    getProducerId [(ProducerId, "p1"), (GroupId, "g1")] = "g1" ∧
    getConsumerId [(ProducerId, "p1"), (GroupId, "g1")] = "g1" :=
  (groupId_fallback [(ProducerId, "p1"), (GroupId, "g1")]).1 "g1" (by rfl)

/-- C9: the GroupId fallback is triggered by presence, not non-emptiness:
with GroupId present holding the empty string, both id getters return the
empty string whatever ProducerId or ConsumerId hold. -/
theorem groupId_fallback_presence (s : PropertyMap)
    (h : getProperty s GroupId = some EMPTY_STRING) :
    getProducerId s = EMPTY_STRING ∧ getConsumerId s = EMPTY_STRING := by
  simp [getProducerId, getConsumerId, h]

/-- Witness for C9: GroupId empty while ProducerId and ConsumerId hold
non-empty values; both getters still return the empty string. -/
theorem groupId_fallback_presence_witness :
    getProducerId [(GroupId, ""), (ProducerId, "pp"), (ConsumerId, "cc")] = EMPTY_STRING ∧
    getConsumerId [(GroupId, ""), (ProducerId, "pp"), (ConsumerId, "cc")] = EMPTY_STRING :=
  groupId_fallback_presence [(GroupId, ""), (ProducerId, "pp"), (ConsumerId, "cc")] (by rfl)

/-- C6: setting AccessKey or SecretKey to the empty string fails with the
corresponding validation error; setting either to any non-empty value
succeeds, after which the corresponding getter returns exactly that value. -/
theorem credential_write_spec (v : String) (s : PropertyMap) :
    (v = "" →
        setFactoryProperty s AccessKey v = Except.error accessKeyError ∧
        setFactoryProperty s SecretKey v = Except.error secretKeyError) ∧
    (v ≠ "" →
        setFactoryProperty s AccessKey v = Except.ok (mapInsert s AccessKey v) ∧
        getAccessKey (mapInsert s AccessKey v) = v ∧
        setFactoryProperty s SecretKey v = Except.ok (mapInsert s SecretKey v) ∧
        getSecretKey (mapInsert s SecretKey v) = v) := by
  constructor
  · intro hv
    subst hv
    exact ⟨setFactoryProperty_of_validate_error s AccessKey "" accessKeyError rfl,
      setFactoryProperty_of_validate_error s SecretKey "" secretKeyError rfl⟩
  · intro hv
    refine ⟨setFactoryProperty_of_validate_ok s AccessKey v true
        (validate_accessKey_nonempty v hv), ?_,
      setFactoryProperty_of_validate_ok s SecretKey v true
        (validate_secretKey_nonempty v hv), ?_⟩
    · unfold getAccessKey getPropertyD
      rw [mapFind_mapInsert_self]
      rfl
    · unfold getSecretKey getPropertyD
      rw [mapFind_mapInsert_self]
      rfl

/-- Witness for C6: both credential keys reject the empty string with their
validation errors, and accept the concrete value ak, retrievable verbatim. -/
theorem credential_write_spec_witness :
    (setFactoryProperty [] AccessKey "" = Except.error accessKeyError ∧
     setFactoryProperty [] SecretKey "" = Except.error secretKeyError) ∧
    (setFactoryProperty [] AccessKey "ak" = Except.ok (mapInsert [] AccessKey "ak") ∧
     getAccessKey (mapInsert [] AccessKey "ak") = "ak" ∧
     setFactoryProperty [] SecretKey "ak" = Except.ok (mapInsert [] SecretKey "ak") ∧
     getSecretKey (mapInsert [] SecretKey "ak") = "ak") :=
  ⟨(credential_write_spec "" []).1 rfl, (credential_write_spec "ak" []).2 (by decide)⟩

/-- C7: for every variant of the five-valued channel enum, `setOnsChannel`
succeeds and `getOnsChannel` reads the same variant back; `getOnsChannel`
returns the default ALIYUN when the OnsChannel key is absent or holds a
string that is none of the five known literals. -/
theorem onsChannel_roundtrip_default (c : ONSChannel) (s : PropertyMap) :
    (∃ s', setOnsChannel s c = Except.ok s' ∧ getOnsChannel s' = c) ∧
    (getProperty s OnsChannel = none → getOnsChannel s = ONSChannel.ALIYUN) ∧
    (∀ v, getProperty s OnsChannel = some v → v ≠ "CLOUD" → v ≠ "ALIYUN" →
        v ≠ "ALL" → v ≠ "LOCAL" → v ≠ "INNER" →
        getOnsChannel s = ONSChannel.ALIYUN) := by
  have hv : ∀ w, validate OnsChannel w = Except.ok true := fun w =>
    validate_not_special OnsChannel w (by decide) (by decide) (by decide)
  refine ⟨?_, ?_, ?_⟩
  · cases c with
    | CLOUD =>
      refine ⟨mapInsert s OnsChannel "CLOUD", ?_, ?_⟩
      · unfold setOnsChannel
        rw [if_pos rfl]
        exact setFactoryProperty_of_validate_ok s OnsChannel "CLOUD" true (hv "CLOUD")
      · unfold getOnsChannel getPropertyD
        rw [mapFind_mapInsert_self]
        decide
    | ALIYUN =>
      refine ⟨mapInsert s OnsChannel "ALIYUN", ?_, ?_⟩
      · unfold setOnsChannel
        rw [if_neg (by decide), if_pos rfl]
        exact setFactoryProperty_of_validate_ok s OnsChannel "ALIYUN" true (hv "ALIYUN")
      · unfold getOnsChannel getPropertyD
        rw [mapFind_mapInsert_self]
        decide
    | ALL =>
      refine ⟨mapInsert s OnsChannel "ALL", ?_, ?_⟩
      · unfold setOnsChannel
        rw [if_neg (by decide), if_neg (by decide), if_pos rfl]
        exact setFactoryProperty_of_validate_ok s OnsChannel "ALL" true (hv "ALL")
      · unfold getOnsChannel getPropertyD
        rw [mapFind_mapInsert_self]
        decide
    | LOCAL =>
      refine ⟨mapInsert s OnsChannel "LOCAL", ?_, ?_⟩
      · unfold setOnsChannel
        rw [if_neg (by decide), if_neg (by decide), if_neg (by decide), if_pos rfl]
        exact setFactoryProperty_of_validate_ok s OnsChannel "LOCAL" true (hv "LOCAL")
      · unfold getOnsChannel getPropertyD
        rw [mapFind_mapInsert_self]
        decide
    | INNER =>
      refine ⟨mapInsert s OnsChannel "INNER", ?_, ?_⟩
      · unfold setOnsChannel
        rw [if_neg (by decide), if_neg (by decide), if_neg (by decide),
          if_neg (by decide), if_pos rfl]
        exact setFactoryProperty_of_validate_ok s OnsChannel "INNER" true (hv "INNER")
      · unfold getOnsChannel getPropertyD
        rw [mapFind_mapInsert_self]
        decide
  · intro h
    unfold getProperty at h
    unfold getOnsChannel getPropertyD
    rw [h]
    decide
  · intro v hsome h1 h2 h3 h4 h5
    unfold getProperty at hsome
    unfold getOnsChannel getPropertyD
    rw [hsome]
    simp [Option.getD, h1, h2, h3, h4, h5]

/-- Witness for C7: LOCAL round-trips on the empty store; the empty store and
a store holding the unknown literal bogus both read back ALIYUN. -/
theorem onsChannel_roundtrip_default_witness :
    (∃ s', setOnsChannel [] ONSChannel.LOCAL = Except.ok s' ∧
        getOnsChannel s' = ONSChannel.LOCAL) ∧
    getOnsChannel [] = ONSChannel.ALIYUN ∧
    getOnsChannel [(OnsChannel, "bogus")] = ONSChannel.ALIYUN :=
  ⟨(onsChannel_roundtrip_default ONSChannel.LOCAL []).1,
   (onsChannel_roundtrip_default ONSChannel.LOCAL []).2.1 rfl,
   (onsChannel_roundtrip_default ONSChannel.LOCAL [(OnsChannel, "bogus")]).2.2 "bogus" rfl
     (by decide) (by decide) (by decide) (by decide) (by decide)⟩

/-- Counterexample for C2: via the raw string path, an OnsChannel value
outside the five known literals is not rejected - the write succeeds and the
value is stored. -/
theorem onsChannel_raw_write_accepted_cex :
    setFactoryProperty [] OnsChannel "NOPE" = Except.ok [(OnsChannel, "NOPE")] := by
  rfl

/-- C2 (amended): via the raw string path, MessageModel rejects any value
other than its two literals with a validation error; OnsChannel, however, is
not validated on the raw string path - every string value is accepted and
stored - and unknown channel values are rejected only by the enum-typed
setter `setOnsChannel`. -/
theorem raw_string_enum_validation (v : String) (s : PropertyMap) :
    (v ≠ BROADCASTING → v ≠ CLUSTERING →
        setFactoryProperty s MessageModel v = Except.error messageModelError) ∧
    setFactoryProperty s OnsChannel v = Except.ok (mapInsert s OnsChannel v) := by
  constructor
  · intro h1 h2
    exact setFactoryProperty_of_validate_error s MessageModel v messageModelError
      (validate_messageModel_bad v h1 h2)
  · exact setFactoryProperty_of_validate_ok s OnsChannel v true
      (validate_not_special OnsChannel v (by decide) (by decide) (by decide))

/-- Witness for C2 (amended): the value NOPE is rejected for MessageModel but
accepted and stored for OnsChannel. -/
theorem raw_string_enum_validation_witness :
    setFactoryProperty [] MessageModel "NOPE" = Except.error messageModelError ∧
    setFactoryProperty [] OnsChannel "NOPE" = Except.ok (mapInsert [] OnsChannel "NOPE") :=
  ⟨(raw_string_enum_validation "NOPE" []).1 (by decide) (by decide),
   (raw_string_enum_validation "NOPE" []).2⟩

/-- C8: `setSuspendDuration` with a zero-valued duration performs no write:
the whole store - every key - is exactly what it was before the call, and in
particular the seeded default 3000 under SuspendTimeMillis persists. -/
theorem suspendDuration_zero_skips_write (s : PropertyMap) :
    setSuspendDuration s 0 = Except.ok s ∧
    getProperty defaultStore SuspendTimeMillis = some "3000" ∧
    setSuspendDuration defaultStore 0 = Except.ok defaultStore :=
  ⟨rfl, rfl, rfl⟩

/-- C5: the bootstrap loader, run after defaults are seeded: a missing (or
unreadable, or unparseable) file leaves the store exactly as it was and
raises no error, so construction yields the seeded defaults; a parsed object
is copied through the validated write for exactly the four recognized fields,
so every other key is left untouched; and a file whose AccessKey field is the
empty string makes the loader - and the construction that runs it - raise the
AccessKey validation error. -/
theorem bootstrap_loader_spec (fields : ConfigFields) (s : PropertyMap) :
    loadConfigFile none s = Except.ok s ∧
    construct none = Except.ok defaultStore ∧
    (∀ k, k ≠ AccessKey → k ≠ SecretKey → k ≠ NAMESRV_ADDR → k ≠ GroupId →
        ∀ s', loadConfigFile (some fields) s = Except.ok s' →
          getProperty s' k = getProperty s k) ∧
    (∀ s', loadConfigFile (some fields) s = Except.ok s' →
        (containsField fields AccessKey = true →
            getProperty s' AccessKey = some (fieldValue fields AccessKey)) ∧
        (containsField fields SecretKey = true →
            getProperty s' SecretKey = some (fieldValue fields SecretKey)) ∧
        (containsField fields NAMESRV_ADDR = true →
            getProperty s' NAMESRV_ADDR = some (fieldValue fields NAMESRV_ADDR)) ∧
        (containsField fields GroupId = true →
            getProperty s' GroupId = some (fieldValue fields GroupId))) ∧
    (containsField fields AccessKey = true → fieldValue fields AccessKey = "" →
        loadConfigFile (some fields) s = Except.error accessKeyError) ∧
    construct (some [(AccessKey, "")]) = Except.error accessKeyError := by
  refine ⟨rfl, rfl, ?_, ?_, ?_, rfl⟩
  · intro k hk1 hk2 hk3 hk4 s' h
    obtain ⟨s1, s2, s3, e1, e2, e3, e4⟩ := loadConfigFile_ok_cases fields s s' h
    calc getProperty s' k = getProperty s3 k := loadStep_ok_frame s3 fields GroupId k hk4 s' e4
      _ = getProperty s2 k := loadStep_ok_frame s2 fields NAMESRV_ADDR k hk3 s3 e3
      _ = getProperty s1 k := loadStep_ok_frame s1 fields SecretKey k hk2 s2 e2
      _ = getProperty s k := loadStep_ok_frame s fields AccessKey k hk1 s1 e1
  · intro s' h
    obtain ⟨s1, s2, s3, e1, e2, e3, e4⟩ := loadConfigFile_ok_cases fields s s' h
    refine ⟨?_, ?_, ?_, ?_⟩
    · intro hc
      calc getProperty s' AccessKey
          = getProperty s3 AccessKey :=
            loadStep_ok_frame s3 fields GroupId AccessKey (by decide) s' e4
        _ = getProperty s2 AccessKey :=
            loadStep_ok_frame s2 fields NAMESRV_ADDR AccessKey (by decide) s3 e3
        _ = getProperty s1 AccessKey :=
            loadStep_ok_frame s1 fields SecretKey AccessKey (by decide) s2 e2
        _ = some (fieldValue fields AccessKey) := loadStep_ok_set s fields AccessKey hc s1 e1
    · intro hc
      calc getProperty s' SecretKey
          = getProperty s3 SecretKey :=
            loadStep_ok_frame s3 fields GroupId SecretKey (by decide) s' e4
        _ = getProperty s2 SecretKey :=
            loadStep_ok_frame s2 fields NAMESRV_ADDR SecretKey (by decide) s3 e3
        _ = some (fieldValue fields SecretKey) := loadStep_ok_set s1 fields SecretKey hc s2 e2
    · intro hc
      calc getProperty s' NAMESRV_ADDR
          = getProperty s3 NAMESRV_ADDR :=
            loadStep_ok_frame s3 fields GroupId NAMESRV_ADDR (by decide) s' e4
        _ = some (fieldValue fields NAMESRV_ADDR) :=
            loadStep_ok_set s2 fields NAMESRV_ADDR hc s3 e3
    · intro hc
      exact loadStep_ok_set s3 fields GroupId hc s' e4
  · intro hc hval
    have hstep : loadStep s fields AccessKey = Except.error accessKeyError := by
      unfold loadStep
      rw [if_pos hc, hval]
      exact setFactoryProperty_of_validate_error s AccessKey "" accessKeyError rfl
    unfold loadConfigFile
    simp only [bind, Except.bind, pure, Except.pure]
    rw [hstep]

/-- Witness for C5: loading a GroupId-only file over the defaults leaves
MessageModel untouched, and loading an empty-AccessKey file raises the
AccessKey validation error. -/
theorem bootstrap_loader_spec_witness :
    getProperty (mapInsert defaultStore GroupId "g1") MessageModel =
      getProperty defaultStore MessageModel ∧
    getProperty (mapInsert defaultStore GroupId "g1") GroupId = some "g1" ∧
    loadConfigFile (some [(AccessKey, "")]) defaultStore = Except.error accessKeyError :=
  ⟨(bootstrap_loader_spec [(GroupId, "g1")] defaultStore).2.2.1 MessageModel
      (by decide) (by decide) (by decide) (by decide)
      (mapInsert defaultStore GroupId "g1") (by rfl),
   ((bootstrap_loader_spec [(GroupId, "g1")] defaultStore).2.2.2.1
      (mapInsert defaultStore GroupId "g1") (by rfl)).2.2.2 (by rfl),
   (bootstrap_loader_spec [(AccessKey, "")] defaultStore).2.2.2.2.1 (by rfl) (by rfl)⟩

/-- C3: the boolean conversion returns false exactly when the channel read by
`getOnsChannel` is ALIYUN and AccessKey or SecretKey is empty; it returns
true in every other case. -/
theorem toBool_spec (s : PropertyMap) :
    toBool s = false ↔
      getOnsChannel s = ONSChannel.ALIYUN ∧
        (getAccessKey s = "" ∨ getSecretKey s = "") := by
  unfold toBool
  cases h : getOnsChannel s <;>
    simp [h, String.isEmpty_iff, Decidable.imp_iff_not_or]

end ons.ONSFactoryProperty
